import Mathlib

/-!
Verification of the IntelSeed repository against its specification.

The repository's visible source is a single packaging script, `setup.py`,
whose `CustomBuildPy.run` command delegates to the inherited setuptools
`build_py.run` and then merely checks whether the compiled native library
`intel_seed/librdseed.so` exists, printing one of two messages.  We embed
that script shallowly: the filesystem is a set of absolute paths together
with a current working directory and a log of launched external processes;
`run` is a state transformer parametric in the (external) inherited build
step.  The native RDSEED core the package distributes is referenced by the
repository but its source is absent, so the draw operations are modelled
from the specification, as noted on each such definition.
-/

namespace IntelSeed

/-- State visible to the packaging script: the current working directory,
the set of existing absolute file paths, and a log of the external
processes launched so far (the script imports `subprocess` but the log lets
us state that `run` never extends it). -/
structure FSState where
  cwd : String
  files : List String
  procs : List String
  deriving DecidableEq, Repr

/-- Model of Python `os.path.join` for the one case the script exercises:
a relative second component and a first component with no trailing
separator. -/
def os_path_join (a b : String) : String := a ++ "/" ++ b

/-- setup.py line 23: `package_dir = "intel_seed"`. -/
def package_dir : String := "intel_seed"

/-- setup.py line 24: `library_path = os.path.join(package_dir, "librdseed.so")`. -/
def library_path : String := os_path_join package_dir "librdseed.so"

/-- Model of Python path resolution: an absolute path stands for itself,
a relative path is resolved against the current working directory. -/
def resolve (cwd p : String) : String :=
  match p.data with
  | List.cons c _ => if c = '/' then p else cwd ++ "/" ++ p
  | List.nil => cwd ++ "/" ++ p

/-- Model of `os.path.exists`: the resolved path is among the existing files. -/
def os_path_exists (st : FSState) (p : String) : Bool :=
  st.files.contains (resolve st.cwd p)

/-- The message printed when the library is missing (setup.py line 27). -/
def warning_msg : String :=
  "Warning: " ++ library_path ++ " not found. Make sure to compile it manually."

/-- The message printed when the library is found (setup.py line 29). -/
def found_msg : String :=
  "Found compiled library at " ++ library_path

/-- `CustomBuildPy.run` (setup.py lines 16-29): call the inherited
`build_py.run` first, then check whether `intel_seed/librdseed.so` exists
and print one of two messages.  The inherited step is external code, so it
is a parameter `parentRun`, a state transformer returning the new state and
its printed output; `run` returns the final state and the whole printed
output. -/
def CustomBuildPy_run (parentRun : FSState → FSState × List String)
    (st : FSState) : FSState × List String :=
  let p := parentRun st
  let msg :=
    if !(os_path_exists p.1 library_path) then warning_msg else found_msg
  (p.1, p.2 ++ [msg])

/-- The distribution metadata fields passed to the `setup(...)` call, with
`cmdclass` mapping command names to the modelled command implementations. -/
structure SetupArgs where
  name : String
  version : String
  description : String
  author : String
  author_email : String
  package_data : List (String × List String)
  include_package_data : Bool
  cmdclass : List (String × ((FSState → FSState × List String) → FSState → FSState × List String))
  classifiers : List String
  python_requires : String
  install_requires : List String
  extras_require : List (String × List String)

/-- setup.py lines 31-61: the arguments of the `setup(...)` call. -/
def setup_args : SetupArgs :=
  { name := "intel-seed"
    version := "1.0.0"
    description := "Python module for Intel RDSEED hardware random number generation"
    author := "Thiago Jung"
    author_email := "thiagojm1984@hotmail.com"
    package_data := [("intel_seed", ["librdseed.so"])]
    include_package_data := true
    cmdclass := [("build_py", CustomBuildPy_run)]
    classifiers :=
      [ "Development Status :: 4 - Beta"
      , "Intended Audience :: Developers"
      , "License :: OSI Approved :: MIT License"
      , "Programming Language :: Python :: 3"
      , "Programming Language :: Python :: 3.8"
      , "Programming Language :: Python :: 3.9"
      , "Programming Language :: Python :: 3.10"
      , "Programming Language :: Python :: 3.11"
      , "Programming Language :: Python :: 3.12"
      , "Topic :: Security :: Cryptography"
      , "Topic :: Software Development :: Libraries :: Python Modules" ]
    python_requires := ">=3.8"
    install_requires := []
    extras_require := [("dev", ["pytest", "black", "flake8"])] }

/-- A trivial inherited build step used for concrete witnesses: it changes
nothing and prints nothing. -/
def idParent : FSState → FSState × List String := fun st => (st, [])

/-- A concrete state with no files, used for concrete witnesses. -/
def emptyState : FSState := { cwd := "/build", files := [], procs := [] }

/-- Claim C1: `CustomBuildPy.run`, after delegating to the inherited
`build_py.run`, only verifies the artifact at `intel_seed/librdseed.so` and
prints one of two messages chosen by that existence check; the final state
is exactly the parent's state, so it performs no compilation, and the
process log is unchanged, so it launches no external process. -/
theorem C1_run_only_verifies (parentRun : FSState → FSState × List String)
    (st : FSState) :
    (CustomBuildPy_run parentRun st).1 = (parentRun st).1 ∧
    (CustomBuildPy_run parentRun st).2
      = (parentRun st).2 ++
        [if os_path_exists (parentRun st).1 library_path then found_msg
         else warning_msg] ∧
    (CustomBuildPy_run parentRun st).1.procs = (parentRun st).1.procs ∧
    library_path = "intel_seed/librdseed.so" := by
  refine ⟨rfl, ?_, rfl, by decide⟩
  unfold CustomBuildPy_run
  cases h : os_path_exists (parentRun st).1 library_path <;> simp [h]

/-- Claim C2: when `intel_seed/librdseed.so` does not exist after the
inherited step, `run` handles the missing artifact solely by printing the
warning message and returns normally, with the same final state as the
parent produced. -/
theorem C2_missing_library_warns_and_returns
    (parentRun : FSState → FSState × List String) (st : FSState)
    (h : os_path_exists (parentRun st).1 library_path = false) :
    CustomBuildPy_run parentRun st
      = ((parentRun st).1, (parentRun st).2 ++ [warning_msg]) := by
  unfold CustomBuildPy_run
  simp [h]

/-- Witness for C2 at a concrete state with no files and a trivial parent. -/
theorem C2_witness :
    CustomBuildPy_run idParent emptyState = (emptyState, [warning_msg]) :=
  C2_missing_library_warns_and_returns idParent emptyState (by decide)

/-- Claim C3: the `setup` call declares package name "intel-seed", version
"1.0.0", `librdseed.so` as package data of the `intel_seed` package,
`python_requires` ">=3.8", an empty `install_requires` list, and
`CustomBuildPy` registered as the `build_py` command. -/
theorem C3_setup_metadata :
    setup_args.name = "intel-seed" ∧
    setup_args.version = "1.0.0" ∧
    setup_args.package_data = [("intel_seed", ["librdseed.so"])] ∧
    setup_args.python_requires = ">=3.8" ∧
    setup_args.install_requires = [] ∧
    setup_args.cmdclass = [("build_py", CustomBuildPy_run)] :=
  ⟨rfl, rfl, rfl, rfl, rfl, rfl⟩

/-- Claim C9: the verification part of `run` is read-only on the
filesystem — the final file set is exactly the one the inherited step
produced; in particular, when the library is absent before `run` and the
inherited step does not create it, it is still absent after `run`. -/
theorem C9_run_filesystem_frame (parentRun : FSState → FSState × List String)
    (st : FSState) :
    (CustomBuildPy_run parentRun st).1.files = (parentRun st).1.files ∧
    (os_path_exists st library_path = false →
      os_path_exists (parentRun st).1 library_path = false →
      os_path_exists (CustomBuildPy_run parentRun st).1 library_path = false) :=
  ⟨rfl, fun _ h => h⟩

/-- Witness for C9: with a trivial parent and an empty filesystem the
library is still absent after `run`. -/
theorem C9_witness :
    os_path_exists (CustomBuildPy_run idParent emptyState).1 library_path = false :=
  (C9_run_filesystem_frame idParent emptyState).2 (by decide) (by decide)

/-- Files shared by the two cwd-sensitivity states of claim C10. -/
def sharedFiles : List String := ["/a/intel_seed/librdseed.so"]

/-- A state whose working directory makes the relative library path resolve
to an existing file. -/
def stateA : FSState := { cwd := "/a", files := sharedFiles, procs := [] }

/-- The same files as `stateA` but a different working directory, under
which the relative library path resolves to a missing file. -/
def stateB : FSState := { cwd := "/b", files := sharedFiles, procs := [] }

/-- Claim C10: the printed message and outcome of `run` depend only on
whether the relative library path exists after the inherited step, resolved
against the current working directory — any two runs agreeing on that check
append the same message — and two states with identical files but different
working directories can yield different verification output. -/
theorem C10_deterministic_and_cwd_sensitive :
    (∀ (pr1 pr2 : FSState → FSState × List String) (st1 st2 : FSState),
      os_path_exists (pr1 st1).1 library_path
          = os_path_exists (pr2 st2).1 library_path →
      ∃ msg, (CustomBuildPy_run pr1 st1).2 = (pr1 st1).2 ++ [msg] ∧
             (CustomBuildPy_run pr2 st2).2 = (pr2 st2).2 ++ [msg]) ∧
    (CustomBuildPy_run idParent stateA).2 ≠ (CustomBuildPy_run idParent stateB).2 := by
  constructor
  · intro pr1 pr2 st1 st2 h
    refine ⟨if !(os_path_exists (pr1 st1).1 library_path) then warning_msg
            else found_msg, rfl, ?_⟩
    unfold CustomBuildPy_run
    rw [h]
  · decide

/-- Witness for C10: the determinism direction applied to one concrete run
against itself. -/
theorem C10_witness :
    ∃ msg, (CustomBuildPy_run idParent stateA).2 = (idParent stateA).2 ++ [msg] ∧
           (CustomBuildPy_run idParent stateA).2 = (idParent stateA).2 ++ [msg] :=
  C10_deterministic_and_cwd_sensitive.1 idParent idParent stateA stateA rfl

/-- Modelled from the spec: the native RDSEED core (`librdseed.so`) is
referenced by the repository but its source is absent, so the data model of
section 3 is embedded from the spec's words.  `AcquisitionResult` is the
tagged outcome of one draw: `Success` carrying the drawn word, or
`Exhausted` when the retry budget is spent. -/
inductive AcquisitionResult where
  | Success (word : Nat)
  | Exhausted
  deriving DecidableEq, Repr

/-- Modelled from the spec: the fixed per-draw retry bound ("bounded
retries, e.g. 10 attempts"; the concrete scenarios use a 10-attempt
budget). -/
def RETRY_BOUND : Nat := 10

/-- Modelled from the spec: the bounded retry loop of `RdseedSource`.
`instr` is the hardware-instruction oracle: on the k-th attempt it either
reports failure (`none`) or success with the raw bits it produced; a
successful draw stores those bits in a width-bit register, so the kept word
is the raw bits reduced modulo `2 ^ width`.  `start` is the index of the
next attempt and the second argument the remaining attempt budget; the
result is returned together with the number of attempts issued. -/
def drawLoop (width : Nat) (instr : Nat → Option Nat) :
    Nat → Nat → AcquisitionResult × Nat
  | _, 0 => (AcquisitionResult.Exhausted, 0)
  | start, fuel + 1 =>
    match instr start with
    | some v => (AcquisitionResult.Success (v % 2 ^ width), 1)
    | none =>
      let r := drawLoop width instr (start + 1) fuel
      (r.1, r.2 + 1)

/-- Modelled from the spec: `draw16()` issues the 16-bit instruction with
the full retry budget. -/
def draw16 (instr : Nat → Option Nat) : AcquisitionResult × Nat :=
  drawLoop 16 instr 0 RETRY_BOUND

/-- Modelled from the spec: `draw32()` issues the 32-bit instruction with
the full retry budget. -/
def draw32 (instr : Nat → Option Nat) : AcquisitionResult × Nat :=
  drawLoop 32 instr 0 RETRY_BOUND

/-- Modelled from the spec: `draw64()` issues the 64-bit instruction with
the full retry budget. -/
def draw64 (instr : Nat → Option Nat) : AcquisitionResult × Nat :=
  drawLoop 64 instr 0 RETRY_BOUND

/-- When every attempt fails, the loop spends its whole budget and reports
`Exhausted` with exactly that many attempts. -/
theorem drawLoop_all_fail (width : Nat) (instr : Nat → Option Nat)
    (h : ∀ k, instr k = none) :
    ∀ fuel start, drawLoop width instr start fuel
      = (AcquisitionResult.Exhausted, fuel) := by
  intro fuel
  induction fuel with
  | zero => intro start; rfl
  | succ n ih =>
    intro start
    simp [drawLoop, h start, ih (start + 1)]

/-- The loop never issues more attempts than its budget. -/
theorem drawLoop_attempts_le (width : Nat) (instr : Nat → Option Nat) :
    ∀ fuel start, (drawLoop width instr start fuel).2 ≤ fuel := by
  intro fuel
  induction fuel with
  | zero => intro start; simp [drawLoop]
  | succ n ih =>
    intro start
    cases h : instr start with
    | some v => simp [drawLoop, h]
    | none =>
      simp only [drawLoop, h]
      exact Nat.succ_le_succ (ih (start + 1))

/-- A successful loop result comes from an in-budget attempt on which the
instruction reported success, the kept word is that attempt's bits reduced
to the width, and the draw stopped right there. -/
theorem drawLoop_success (width : Nat) (instr : Nat → Option Nat) :
    ∀ fuel start v n,
      drawLoop width instr start fuel = (AcquisitionResult.Success v, n) →
      ∃ j, j < fuel ∧
        (∃ u, instr (start + j) = some u ∧ v = u % 2 ^ width) ∧ n = j + 1 := by
  intro fuel
  induction fuel with
  | zero =>
    intro start v n h
    exact absurd h (by simp [drawLoop])
  | succ m ih =>
    intro start v n h
    cases hi : instr start with
    | some u =>
      rw [show drawLoop width instr start (m + 1)
            = (AcquisitionResult.Success (u % 2 ^ width), 1) by
          simp [drawLoop, hi]] at h
      have h1 : AcquisitionResult.Success (u % 2 ^ width)
          = AcquisitionResult.Success v := congrArg Prod.fst h
      have h2 : (1 : Nat) = n := congrArg Prod.snd h
      refine ⟨0, Nat.succ_pos m, ⟨u, ?_, ?_⟩, ?_⟩
      · simpa using hi
      · exact (AcquisitionResult.Success.inj h1).symm
      · omega
    | none =>
      rw [show drawLoop width instr start (m + 1)
            = ((drawLoop width instr (start + 1) m).1,
               (drawLoop width instr (start + 1) m).2 + 1) by
          simp [drawLoop, hi]] at h
      have h1 : (drawLoop width instr (start + 1) m).1
          = AcquisitionResult.Success v := congrArg Prod.fst h
      have h2 : (drawLoop width instr (start + 1) m).2 + 1 = n :=
        congrArg Prod.snd h
      have hp : drawLoop width instr (start + 1) m
          = (AcquisitionResult.Success v, (drawLoop width instr (start + 1) m).2) := by
        rw [← h1]
      obtain ⟨j, hj, ⟨u, hu, hv⟩, hn⟩ :=
        ih (start + 1) v (drawLoop width instr (start + 1) m).2 hp
      refine ⟨j + 1, by omega, ⟨u, ?_, hv⟩, by omega⟩
      rw [show start + (j + 1) = start + 1 + j by omega]
      exact hu

/-- Unfolding step for a failing attempt. -/
theorem drawLoop_step_none (width : Nat) (instr : Nat → Option Nat)
    (start fuel : Nat) (h : instr start = none) :
    drawLoop width instr start (fuel + 1)
      = ((drawLoop width instr (start + 1) fuel).1,
         (drawLoop width instr (start + 1) fuel).2 + 1) := by
  simp [drawLoop, h]

/-- Unfolding step for a successful attempt. -/
theorem drawLoop_step_some (width : Nat) (instr : Nat → Option Nat)
    (start fuel u : Nat) (h : instr start = some u) :
    drawLoop width instr start (fuel + 1)
      = (AcquisitionResult.Success (u % 2 ^ width), 1) := by
  simp [drawLoop, h]

/-- The word of a successful loop result fits in the draw's width. -/
theorem drawLoop_success_lt (width : Nat) (instr : Nat → Option Nat)
    (fuel start v n : Nat)
    (h : drawLoop width instr start fuel = (AcquisitionResult.Success v, n)) :
    v < 2 ^ width := by
  obtain ⟨j, _, ⟨u, _, hv⟩, _⟩ := drawLoop_success width instr fuel start v n h
  exact hv ▸ Nat.mod_lt u (Nat.pos_pow_of_pos width (by omega))

/-- Claim C4: when the instruction always reports failure, `draw64` returns
`Exhausted` after exactly the configured retry bound of attempts — not
fewer, not more. -/
theorem C4_draw64_exhausts_exactly_retry_bound (instr : Nat → Option Nat)
    (h : ∀ k, instr k = none) :
    draw64 instr = (AcquisitionResult.Exhausted, RETRY_BOUND) :=
  drawLoop_all_fail 64 instr h RETRY_BOUND 0

/-- Witness for C4 with the always-failing stub instruction. -/
theorem C4_witness :
    draw64 (fun _ => none) = (AcquisitionResult.Exhausted, RETRY_BOUND) :=
  C4_draw64_exhausts_exactly_retry_bound (fun _ => none) (fun _ => rfl)

/-- Claim C5: for each of the three draws, a word reaches the caller only
when the instruction reported success on an attempt of that very draw: the
word is exactly that attempt's output (reduced to the width) and the draw
stopped at that attempt, so no cached value and no prior draw's bits are
ever returned. -/
theorem C5_success_only_from_fresh_draw (instr : Nat → Option Nat)
    (v n : Nat) :
    (draw16 instr = (AcquisitionResult.Success v, n) →
      ∃ j, j < RETRY_BOUND ∧
        (∃ u, instr (0 + j) = some u ∧ v = u % 2 ^ 16) ∧ n = j + 1) ∧
    (draw32 instr = (AcquisitionResult.Success v, n) →
      ∃ j, j < RETRY_BOUND ∧
        (∃ u, instr (0 + j) = some u ∧ v = u % 2 ^ 32) ∧ n = j + 1) ∧
    (draw64 instr = (AcquisitionResult.Success v, n) →
      ∃ j, j < RETRY_BOUND ∧
        (∃ u, instr (0 + j) = some u ∧ v = u % 2 ^ 64) ∧ n = j + 1) :=
  ⟨drawLoop_success 16 instr RETRY_BOUND 0 v n,
   drawLoop_success 32 instr RETRY_BOUND 0 v n,
   drawLoop_success 64 instr RETRY_BOUND 0 v n⟩

/-- Witness for C5 with an instruction that succeeds immediately. -/
theorem C5_witness :
    ∃ j, j < RETRY_BOUND ∧
      (∃ u, (fun _ => some 3 : Nat → Option Nat) (0 + j) = some u ∧
        3 = u % 2 ^ 16) ∧ 1 = j + 1 :=
  (C5_success_only_from_fresh_draw (fun _ => some 3) 3 1).1 (by decide)

/-- Claim C6: every successful draw at width W returns a value in the range
from 0 up to but excluding 2 ^ W, for W = 16, 32 and 64. -/
theorem C6_success_fits_width (instr : Nat → Option Nat) (v : Nat) :
    ((draw16 instr).1 = AcquisitionResult.Success v → v < 2 ^ 16) ∧
    ((draw32 instr).1 = AcquisitionResult.Success v → v < 2 ^ 32) ∧
    ((draw64 instr).1 = AcquisitionResult.Success v → v < 2 ^ 64) := by
  refine ⟨fun h => ?_, fun h => ?_, fun h => ?_⟩
  · exact drawLoop_success_lt 16 instr RETRY_BOUND 0 v (draw16 instr).2
      (by rw [← h]; rfl)
  · exact drawLoop_success_lt 32 instr RETRY_BOUND 0 v (draw32 instr).2
      (by rw [← h]; rfl)
  · exact drawLoop_success_lt 64 instr RETRY_BOUND 0 v (draw64 instr).2
      (by rw [← h]; rfl)

/-- Witness for C6 with an instruction that succeeds immediately. -/
theorem C6_witness : (3 : Nat) < 2 ^ 16 :=
  (C6_success_fits_width (fun _ => some 3) 3).1 (by decide)

/-- Claim C7: every draw terminates for every behavior of the instruction:
the attempts issued never exceed the finite retry bound, and when every
attempt fails each draw returns the well-defined `Exhausted` result. -/
theorem C7_draws_terminate_bounded (instr : Nat → Option Nat) :
    ((draw16 instr).2 ≤ RETRY_BOUND ∧ (draw32 instr).2 ≤ RETRY_BOUND ∧
     (draw64 instr).2 ≤ RETRY_BOUND) ∧
    ((∀ k, instr k = none) →
      (draw16 instr).1 = AcquisitionResult.Exhausted ∧
      (draw32 instr).1 = AcquisitionResult.Exhausted ∧
      (draw64 instr).1 = AcquisitionResult.Exhausted) := by
  refine ⟨⟨drawLoop_attempts_le 16 instr RETRY_BOUND 0,
           drawLoop_attempts_le 32 instr RETRY_BOUND 0,
           drawLoop_attempts_le 64 instr RETRY_BOUND 0⟩, fun h => ?_⟩
  refine ⟨?_, ?_, ?_⟩ <;>
    simp [draw16, draw32, draw64, drawLoop_all_fail _ instr h RETRY_BOUND 0]

/-- Witness for C7 with the always-failing stub instruction. -/
theorem C7_witness :
    (draw16 (fun _ => none)).1 = AcquisitionResult.Exhausted ∧
    (draw32 (fun _ => none)).1 = AcquisitionResult.Exhausted ∧
    (draw64 (fun _ => none)).1 = AcquisitionResult.Exhausted :=
  (C7_draws_terminate_bounded (fun _ => none)).2 (fun _ => rfl)

/-- Claim C8: when the instruction fails on the first two attempts and
succeeds on the third with a 32-bit value, `draw32` returns `Success` with
exactly that value after exactly 3 of its 10 attempts. -/
theorem C8_draw32_succeeds_on_third_attempt (instr : Nat → Option Nat)
    (v : Nat) (h0 : instr 0 = none) (h1 : instr 1 = none)
    (h2 : instr 2 = some v) (hv : v < 2 ^ 32) :
    draw32 instr = (AcquisitionResult.Success v, 3) := by
  have s0 := drawLoop_step_none 32 instr 0 9 h0
  have s1 := drawLoop_step_none 32 instr 1 8 h1
  have s2 := drawLoop_step_some 32 instr 2 7 v h2
  have hmod : v % 2 ^ 32 = v := Nat.mod_eq_of_lt hv
  norm_num at s0 s1 s2 hmod
  unfold draw32 RETRY_BOUND
  rw [s0, s1, s2]
  simp [hmod]

/-- A stub instruction failing on the first two attempts and producing 7 on
the third, used to witness C8. -/
def instr3 : Nat → Option Nat := fun k => if k = 2 then some 7 else none

/-- Witness for C8 at the stub instruction `instr3`. -/
theorem C8_witness : draw32 instr3 = (AcquisitionResult.Success 7, 3) :=
  C8_draw32_succeeds_on_third_attempt instr3 7 rfl rfl rfl (by norm_num)

end IntelSeed
